import Mathlib

/-!
Shallow embedding of `tradingutility.cpp` (repository JP1).

The C++ file provides two free pricing functions and a `StoreTrades` class
holding a `multimap<time_t, Trade*>`.  Modelling conventions:

* C++ `double` arithmetic is modelled over `ℚ` (exact field arithmetic);
  C++ `long` is modelled as `Int`.
* The `multimap` is modelled as a list of key/value pairs kept sorted by
  key (the container invariant of `std::multimap`); `WF` states that
  invariant and `mmInsert` models `multimap::insert`, which places an
  element with a duplicate key after the existing equal keys.
* Member functions are modelled in state-passing style: each takes the
  `StoreTrades` state and returns its result paired with the state after
  the call, so mutation (or its absence) is visible in the type.
* `strptime("%Y-%m-%d %H:%M:%S") . mktime` is modelled by `parseTimestamp`
  (strict match of the documented pattern `YYYY-MM-DD HH:MM:SS`) followed
  by `toEpoch` (civil time to seconds, the standard days-from-civil
  computation; the local-time offset of `mktime` is taken as zero).  The
  C++ code ignores a failed parse and inserts under whatever value
  `mktime` produces from the zeroed `tm`; that unspecified key is
  modelled as `0` (no theorem below depends on its value).
* `pow(x, 1.0/n)` in `calculateGeometricMean` is kept symbolic: the
  function returns the pair (accumulated product, record count) and the
  real value `pow` computes from that pair appears in the theorems as
  `(base : ℝ) ^ (1 / n : ℝ)`.
-/

/-- The error conditions of the interface: the exception object
`NoTradesFound` thrown by the two queries, the `invalid_argument` thrown
by `calculateDividendYield`, and the timestamp-format error named by the
interface description. -/
inductive Err where
  | NoTradesFound
  | InvalidTradeType
  | MalformedTimestamp
  deriving DecidableEq

/-- Embeds `class Trade`: timestamp string, quantity, buy/sell indicator, price. -/
structure Trade where
  timeStampStr : String
  quantity : Int
  buySellIndicator : Char
  price : Int
  deriving DecidableEq

/-- Embeds `double calculateDividendYield(long, string, double, double, long)`:
dispatches on the trade-type string `"Common"` / `"Preferred"` and throws
`invalid_argument` otherwise. -/
def calculateDividendYield (price : Int) (tradeType : String)
    (lastDividend : ℚ) (fixedDividend : ℚ) (parValue : Int) : Except Err ℚ :=
  if tradeType = "Common" then Except.ok (lastDividend / (price : ℚ))
  else if tradeType = "Preferred" then
    Except.ok ((fixedDividend * (parValue : ℚ)) / (price : ℚ))
  else Except.error Err.InvalidTradeType

/-- Embeds `double calculatePERatio(long price, double dividend)`: plain division,
no validation, never throws. -/
def calculatePERatio (price : Int) (dividend : ℚ) : ℚ :=
  (price : ℚ) / dividend

/-- Numeric value of a decimal digit character. -/
def digitVal (c : Char) : Nat := c.toNat - 48

/-- Two-digit decimal value. -/
def dd (a b : Char) : Nat := digitVal a * 10 + digitVal b

/-- Strict parse of the documented timestamp pattern
`YYYY-MM-DD HH:MM:SS` into `(year, month, day, hour, minute, second)`,
with the field ranges `strptime` accepts (`%m` 1..12, `%d` 1..31,
`%H` 0..23, `%M` 0..59, `%S` 0..60). -/
def parseTimestamp (s : String) : Option (Nat × Nat × Nat × Nat × Nat × Nat) :=
  match s.toList with
  | [y1, y2, y3, y4, c1, m1, m2, c2, d1, d2, c3, h1, h2, c4, n1, n2, c5, s1, s2] =>
    if (c1 == '-') && (c2 == '-') && (c3 == ' ') && (c4 == ':') && (c5 == ':') &&
        y1.isDigit && y2.isDigit && y3.isDigit && y4.isDigit &&
        m1.isDigit && m2.isDigit && d1.isDigit && d2.isDigit &&
        h1.isDigit && h2.isDigit && n1.isDigit && n2.isDigit &&
        s1.isDigit && s2.isDigit then
      let y := dd y1 y2 * 100 + dd y3 y4
      let mo := dd m1 m2
      let da := dd d1 d2
      let ho := dd h1 h2
      let mi := dd n1 n2
      let se := dd s1 s2
      if 1 ≤ mo ∧ mo ≤ 12 ∧ 1 ≤ da ∧ da ≤ 31 ∧ ho ≤ 23 ∧ mi ≤ 59 ∧ se ≤ 60 then
        some (y, mo, da, ho, mi, se)
      else none
    else none
  | _ => none

/-- Days since 1970-01-01 of a civil date (standard era/year-of-era
computation, as `mktime` performs). -/
def daysFromCivil (y m d : Int) : Int :=
  let y2 := if m ≤ 2 then y - 1 else y
  let era := (if 0 ≤ y2 then y2 else y2 - 399) / 400
  let yoe := y2 - era * 400
  let mp := if 2 < m then m - 3 else m + 9
  let doy := (153 * mp + 2) / 5 + d - 1
  let doe := yoe * 365 + yoe / 4 - yoe / 100 + doy
  era * 146097 + doe - 719468

/-- Seconds since the epoch of a parsed civil time (`mktime`, with the
local-time offset taken as zero). -/
def toEpoch (c : Nat × Nat × Nat × Nat × Nat × Nat) : Int :=
  daysFromCivil (c.1 : Int) (c.2.1 : Int) (c.2.2.1 : Int) * 86400
    + (c.2.2.2.1 : Int) * 3600 + (c.2.2.2.2.1 : Int) * 60 + (c.2.2.2.2.2 : Int)

/-- The `time_t` key `recordTrade` computes for a timestamp string.  For
input not matching the pattern the C++ code inserts under an unspecified
value (the parse failure is ignored); that value is modelled as `0`. -/
def tradeKey (timeStamp : String) : Int :=
  match parseTimestamp timeStamp with
  | some c => toEpoch c
  | none => 0

/-- Embeds `class StoreTrades`: the `multimap<time_t, Trade*>` member, as a
key/value list. -/
structure StoreTrades where
  trades : List (Int × Trade)
  deriving DecidableEq

/-- The `std::multimap` container invariant: entries sorted ascending by
key. -/
def WF (s : StoreTrades) : Prop :=
  s.trades.Pairwise (fun a b => a.1 ≤ b.1)

instance (s : StoreTrades) : Decidable (WF s) := by
  unfold WF
  infer_instance

/-- Embeds `multimap::insert`: place the new pair after every entry whose key is
`≤ k` (equal keys keep insertion order, i.e. the new element goes at the
end of its equal range). -/
def mmInsert (k : Int) (t : Trade) : List (Int × Trade) → List (Int × Trade)
  | [] => [(k, t)]
  | x :: xs => if x.1 ≤ k then x :: mmInsert k t xs else (k, t) :: x :: xs

/-- Embeds `int recordTrade(string, long, char, long)`: builds the `Trade`,
parses the timestamp, and inserts into the multimap.  The C++ body never
throws and never checks the parse result, so the call always succeeds;
the `Except` wrapper expresses the `success | error` interface shape. -/
def recordTrade (s : StoreTrades) (timeStamp : String) (quantity : Int)
    (buySellIndicator : Char) (price : Int) : Except Err StoreTrades :=
  Except.ok ⟨mmInsert (tradeKey timeStamp)
    ⟨timeStamp, quantity, buySellIndicator, price⟩ s.trades⟩

/-- Sum of the quantities of a run of ledger entries (the
`accumulatedQuantity` loop variable). -/
def sumQ (l : List (Int × Trade)) : ℚ :=
  (l.map (fun kt => ((kt.2.quantity : ℚ)))).sum

/-- Sum of quantity × price of a run of ledger entries (the
`accumulatedPrice` loop variable of the VWAP query). -/
def sumQP (l : List (Int × Trade)) : ℚ :=
  (l.map (fun kt => ((kt.2.quantity : ℚ) * (kt.2.price : ℚ)))).sum

/-- The entries the VWAP loop visits: from
`trades.lower_bound(currentTime - 15*60)` to `trades.end()`, i.e. the
suffix obtained by dropping the entries with key below the window start. -/
def qualifyingTrades (currentTime : Int) (s : StoreTrades) : List (Int × Trade) :=
  s.trades.dropWhile (fun kt => decide (kt.1 < currentTime - 15 * 60))

/-- Embeds `double getVolumeWeightedStockPrice()`: accumulates quantity and
quantity × price over the window suffix, returns their quotient when the
accumulated quantity is nonzero and throws `NoTradesFound` otherwise.
`currentTime` stands for the `time(&currentTime)` call. -/
def getVolumeWeightedStockPrice (currentTime : Int) (s : StoreTrades) :
    Except Err ℚ × StoreTrades :=
  (if sumQ (qualifyingTrades currentTime s) ≠ 0 then
      Except.ok (sumQP (qualifyingTrades currentTime s) / sumQ (qualifyingTrades currentTime s))
    else Except.error Err.NoTradesFound, s)

/-- Product of the prices of all ledger entries (the `accumulatedPrice`
running product of the geometric-mean query). -/
def prodP (l : List (Int × Trade)) : ℚ :=
  (l.map (fun kt => ((kt.2.price : ℚ)))).prod

/-- Embeds `double calculateGeometricMean()`: multiplies every stored price,
then returns `pow(accumulatedPrice, 1/size)` when the ledger is nonempty
and throws `NoTradesFound` otherwise.  The `pow` result is represented
by its two arguments, the pair (accumulated product, record count). -/
def calculateGeometricMean (s : StoreTrades) : Except Err (ℚ × ℕ) × StoreTrades :=
  (if s.trades.length ≠ 0 then Except.ok (prodP s.trades, s.trades.length)
    else Except.error Err.NoTradesFound, s)

/-- The spec-side description of the VWAP window: exactly the recorded
trades whose timestamp is at least `currentTime - 15*60`, with no upper
bound. -/
def windowTrades (currentTime : Int) (s : StoreTrades) : List (Int × Trade) :=
  s.trades.filter (fun kt => decide (currentTime - 15 * 60 ≤ kt.1))

/-- Entrywise agreement of two ledgers on key, timestamp string, quantity
and price — everything except the buy/sell indicator. -/
def sameCore : List (Int × Trade) → List (Int × Trade) → Bool
  | [], [] => true
  | a :: as, b :: bs =>
    (a.1 == b.1) && (a.2.timeStampStr == b.2.timeStampStr) &&
      (a.2.quantity == b.2.quantity) && (a.2.price == b.2.price) && sameCore as bs
  | _, _ => false

/-- The empty ledger (a fresh `StoreTrades`). -/
def emptyStore : StoreTrades := ⟨[]⟩

/-- The data of a ledger entry that every computation except the stored
record itself can see: key, timestamp string, quantity, price (all fields
but the buy/sell indicator). -/
def core (kt : Int × Trade) : Int × String × Int × Int :=
  (kt.1, kt.2.timeStampStr, kt.2.quantity, kt.2.price)

/-- A concrete ledger: one old trade (key 50, outside a window whose current
time is 1000) and two in-window trades, the key-2000 one future-timestamped
relative to current time 1000. -/
def sampleStore : StoreTrades :=
  ⟨[(50, ⟨"2024-01-01 09:30:00", 3, 'B', 7⟩),
    (100, ⟨"2024-01-01 10:00:00", 100, 'B', 50⟩),
    (2000, ⟨"2024-01-01 10:31:40", 200, 'S', 60⟩)]⟩

/-- Variant of `sampleStore` with every buy/sell indicator flipped, all other fields
identical. -/
def sampleStoreFlipped : StoreTrades :=
  ⟨[(50, ⟨"2024-01-01 09:30:00", 3, 'S', 7⟩),
    (100, ⟨"2024-01-01 10:00:00", 100, 'S', 50⟩),
    (2000, ⟨"2024-01-01 10:31:40", 200, 'B', 60⟩)]⟩

theorem mem_mmInsert {k : Int} {t : Trade} {y : Int × Trade} :
    ∀ {l : List (Int × Trade)}, y ∈ mmInsert k t l ↔ y = (k, t) ∨ y ∈ l
  | [] => by simp [mmInsert]
  | x :: xs => by
    simp only [mmInsert]
    by_cases hxk : x.1 ≤ k
    · simp only [hxk, if_true, List.mem_cons, mem_mmInsert (l := xs)]
      tauto
    · simp [hxk]

theorem mmInsert_pairwise {k : Int} {t : Trade} :
    ∀ {l : List (Int × Trade)}, l.Pairwise (fun a b => a.1 ≤ b.1) →
      (mmInsert k t l).Pairwise (fun a b => a.1 ≤ b.1)
  | [], _ => by simp [mmInsert]
  | x :: xs, h => by
    rcases List.pairwise_cons.mp h with ⟨hx, hxs⟩
    simp only [mmInsert]
    by_cases hxk : x.1 ≤ k
    · simp only [hxk, if_true]
      refine List.pairwise_cons.mpr ⟨?_, mmInsert_pairwise hxs⟩
      intro y hy
      rcases mem_mmInsert.mp hy with rfl | hy'
      · exact hxk
      · exact hx y hy'
    · simp only [hxk, if_false]
      refine List.pairwise_cons.mpr ⟨?_, h⟩
      intro y hy
      rcases List.mem_cons.mp hy with rfl | hy'
      · omega
      · exact le_trans (by omega) (hx y hy')

theorem dropWhile_eq_filter_of_pairwise (w : Int) :
    ∀ {l : List (Int × Trade)}, l.Pairwise (fun a b => a.1 ≤ b.1) →
      l.dropWhile (fun kt => decide (kt.1 < w)) = l.filter (fun kt => decide (w ≤ kt.1))
  | [], _ => rfl
  | x :: xs, h => by
    rcases List.pairwise_cons.mp h with ⟨hx, hxs⟩
    rw [List.dropWhile_cons, List.filter_cons]
    by_cases hlt : x.1 < w
    · have hnle : ¬ (w ≤ x.1) := by omega
      rw [if_pos (by simpa using hlt), if_neg (by simpa using hnle)]
      exact dropWhile_eq_filter_of_pairwise w hxs
    · have hle : w ≤ x.1 := by omega
      rw [if_neg (by simpa using hlt), if_pos (by simpa using hle)]
      rw [List.filter_eq_self.mpr]
      intro b hb
      simpa using le_trans hle (hx b hb)

theorem sum_map_filter_mmInsert (f : Int × Trade → ℚ) (pr : Int × Trade → Bool)
    (k : Int) (t : Trade) :
    ∀ l : List (Int × Trade),
      (((mmInsert k t l).filter pr).map f).sum
        = ((l.filter pr).map f).sum + (if pr (k, t) then f (k, t) else 0)
  | [] => by
    simp only [mmInsert, List.filter_nil, List.map_nil, List.sum_nil, List.filter_cons,
      List.filter_nil]
    by_cases hp : pr (k, t) = true <;> simp [hp]
  | x :: xs => by
    simp only [mmInsert]
    by_cases hxk : x.1 ≤ k
    · simp only [hxk, if_true, List.filter_cons]
      by_cases hpx : pr x = true
      · simp only [hpx, if_true, List.map_cons, List.sum_cons,
          sum_map_filter_mmInsert f pr k t xs]
        ring
      · simp [hpx, sum_map_filter_mmInsert f pr k t xs]
    · simp only [hxk, if_false, List.filter_cons]
      by_cases hp : pr (k, t) = true
      · by_cases hpx : pr x = true <;> simp [hp, hpx] <;> ring
      · by_cases hpx : pr x = true <;> simp [hp, hpx]

theorem sameCore_map_core :
    ∀ {l1 l2 : List (Int × Trade)}, sameCore l1 l2 = true → l1.map core = l2.map core
  | [], [], _ => rfl
  | a :: as, b :: bs, h => by
    simp only [sameCore, Bool.and_eq_true, beq_iff_eq] at h
    obtain ⟨⟨⟨⟨hk, hts⟩, hq⟩, hp⟩, hrest⟩ := h
    simp only [List.map_cons, core, hk, hts, hq, hp, sameCore_map_core hrest]
  | [], _ :: _, h => by simp [sameCore] at h
  | _ :: _, [], h => by simp [sameCore] at h

theorem map_core_dropWhile (w : Int) :
    ∀ {l1 l2 : List (Int × Trade)}, l1.map core = l2.map core →
      (l1.dropWhile (fun kt => decide (kt.1 < w))).map core
        = (l2.dropWhile (fun kt => decide (kt.1 < w))).map core
  | [], [], _ => rfl
  | a :: as, b :: bs, h => by
    simp only [List.map_cons, List.cons.injEq] at h
    obtain ⟨hab, hrest⟩ := h
    have hk : a.1 = b.1 := congrArg (fun c : Int × String × Int × Int => c.1) hab
    rw [List.dropWhile_cons, List.dropWhile_cons, hk]
    by_cases hlt : b.1 < w
    · rw [if_pos (by simpa using hlt), if_pos (by simpa using hlt)]
      exact map_core_dropWhile w hrest
    · rw [if_neg (by simpa using hlt), if_neg (by simpa using hlt)]
      simp only [List.map_cons, hab, hrest]
  | [], _ :: _, h => by simp at h
  | _ :: _, [], h => by simp at h

theorem map_core_length {l1 l2 : List (Int × Trade)} (h : l1.map core = l2.map core) :
    l1.length = l2.length := by
  have := congrArg List.length h
  simpa using this

theorem map_core_sumQ {l1 l2 : List (Int × Trade)} (h : l1.map core = l2.map core) :
    sumQ l1 = sumQ l2 := by
  have h2 := congrArg (fun l => (List.map (fun c : Int × String × Int × Int => ((c.2.2.1 : ℚ))) l).sum) h
  simpa [sumQ, List.map_map, Function.comp, core] using h2

theorem map_core_sumQP {l1 l2 : List (Int × Trade)} (h : l1.map core = l2.map core) :
    sumQP l1 = sumQP l2 := by
  have h2 := congrArg
    (fun l => (List.map (fun c : Int × String × Int × Int => ((c.2.2.1 : ℚ) * (c.2.2.2 : ℚ))) l).sum) h
  simpa [sumQP, List.map_map, Function.comp, core] using h2

theorem map_core_prodP {l1 l2 : List (Int × Trade)} (h : l1.map core = l2.map core) :
    prodP l1 = prodP l2 := by
  have h2 := congrArg (fun l => (List.map (fun c : Int × String × Int × Int => ((c.2.2.2 : ℚ))) l).prod) h
  simpa [prodP, List.map_map, Function.comp, core] using h2

theorem prodP_cast (l : List (Int × Trade)) :
    ((prodP l : ℚ) : ℝ) = (l.map (fun kt => ((kt.2.price : ℝ)))).prod := by
  induction l with
  | nil => simp [prodP]
  | cons a l ih => simp [prodP, List.map_cons] at ih ⊢; simp [ih]

theorem qualifying_eq_window (currentTime : Int) (s : StoreTrades) (hs : WF s) :
    qualifyingTrades currentTime s = windowTrades currentTime s :=
  dropWhile_eq_filter_of_pairwise _ hs

/-- C1: for every ledger state and current time, `getVolumeWeightedStockPrice`
sums quantity × price and quantity over exactly the recorded trades whose
timestamp is at least `currentTime - 15*60` (no upper bound, so
future-timestamped trades are included), and when the summed quantity is
nonzero it returns `Σ(quantity*price) / Σ(quantity)`. -/
theorem vwap_sums_over_window (currentTime : Int) (s : StoreTrades) (hs : WF s)
    (h : sumQ (windowTrades currentTime s) ≠ 0) :
    qualifyingTrades currentTime s = windowTrades currentTime s ∧
    (getVolumeWeightedStockPrice currentTime s).1
      = Except.ok (sumQP (windowTrades currentTime s) / sumQ (windowTrades currentTime s)) := by
  have hq := qualifying_eq_window currentTime s hs
  refine ⟨hq, ?_⟩
  rw [getVolumeWeightedStockPrice]
  simp only [hq]
  rw [if_pos h]

/-- C2: `getVolumeWeightedStockPrice` fails with `NoTradesFound` exactly when
the summed quantity over the not-older-than-15-minutes trades is zero, and
`calculateGeometricMean` fails with `NoTradesFound` exactly when the ledger is
empty; each query otherwise returns a value (the `Except` result is a single
constructor, so no call both fails and returns). -/
theorem queries_fail_iff_empty (currentTime : Int) (s : StoreTrades) (hs : WF s) :
    ((getVolumeWeightedStockPrice currentTime s).1 = Except.error Err.NoTradesFound ↔
      sumQ (windowTrades currentTime s) = 0) ∧
    ((getVolumeWeightedStockPrice currentTime s).1 = Except.error Err.NoTradesFound ∨
      (getVolumeWeightedStockPrice currentTime s).1
        = Except.ok (sumQP (windowTrades currentTime s) / sumQ (windowTrades currentTime s))) ∧
    ((calculateGeometricMean s).1 = Except.error Err.NoTradesFound ↔ s.trades = []) ∧
    ((calculateGeometricMean s).1 = Except.error Err.NoTradesFound ∨
      (calculateGeometricMean s).1 = Except.ok (prodP s.trades, s.trades.length)) := by
  have hq := qualifying_eq_window currentTime s hs
  refine ⟨?_, ?_, ?_, ?_⟩
  · rw [getVolumeWeightedStockPrice]
    simp only [hq]
    by_cases h0 : sumQ (windowTrades currentTime s) = 0
    · simp [h0]
    · simp [h0]
  · rw [getVolumeWeightedStockPrice]
    simp only [hq]
    by_cases h0 : sumQ (windowTrades currentTime s) = 0
    · simp [h0]
    · simp [h0]
  · rw [calculateGeometricMean]
    by_cases h0 : s.trades.length = 0
    · simp [h0, List.length_eq_zero.mp h0]
    · simp only [ne_eq, h0, not_false_iff, if_true]
      simp [List.length_eq_zero] at h0
      simp [h0]
  · rw [calculateGeometricMean]
    by_cases h0 : s.trades.length = 0
    · simp [h0]
    · simp [h0]

/-- C3: for every nonempty ledger of prices `p_1 .. p_N`,
`calculateGeometricMean` returns `pow(p_1 * ... * p_N, 1/N)` computed over all
`N` records (window-independent). -/
theorem geomean_over_all_records (s : StoreTrades) (h : s.trades ≠ []) :
    Except.map (fun pn : ℚ × ℕ => ((pn.1 : ℝ)) ^ ((1 : ℝ) / (pn.2 : ℝ)))
        (calculateGeometricMean s).1
      = Except.ok ((s.trades.map (fun kt => ((kt.2.price : ℝ)))).prod
          ^ ((1 : ℝ) / (s.trades.length : ℝ))) := by
  rw [calculateGeometricMean]
  have hlen : s.trades.length ≠ 0 := by simpa using h
  simp only [ne_eq, hlen, not_false_iff, if_true]
  simp [Except.map, prodP_cast]

/-- C4: `calculateDividendYield` returns `lastDividend / price` for trade type
`"Common"` and `(fixedDividend * parValue) / price` for `"Preferred"`, for all
numeric arguments. -/
theorem dividendYield_common_preferred (price : Int) (lastDividend fixedDividend : ℚ)
    (parValue : Int) :
    calculateDividendYield price "Common" lastDividend fixedDividend parValue
        = Except.ok (lastDividend / (price : ℚ)) ∧
    calculateDividendYield price "Preferred" lastDividend fixedDividend parValue
        = Except.ok ((fixedDividend * (parValue : ℚ)) / (price : ℚ)) := by
  constructor
  · rw [calculateDividendYield, if_pos rfl]
  · rw [calculateDividendYield, if_neg (by decide), if_pos rfl]

/-- C5: for every trade-type string other than `"Common"` and `"Preferred"`,
`calculateDividendYield` fails with `InvalidTradeType` regardless of the
numeric arguments. -/
theorem dividendYield_invalid_type (price : Int) (tradeType : String)
    (lastDividend fixedDividend : ℚ) (parValue : Int)
    (h1 : tradeType ≠ "Common") (h2 : tradeType ≠ "Preferred") :
    calculateDividendYield price tradeType lastDividend fixedDividend parValue
      = Except.error Err.InvalidTradeType := by
  rw [calculateDividendYield, if_neg h1, if_neg h2]

/-- C6: for every price and nonzero dividend, `calculatePERatio` returns
`price / dividend`; the function is total (plain division with no validation
and no error path). -/
theorem peRatio_division (price : Int) (dividend : ℚ) (h : dividend ≠ 0) :
    calculatePERatio price dividend = (price : ℚ) / dividend := rfl

/-- C7 counterexample: on the concrete input `"garbage"`, which does not match
the pattern `YYYY-MM-DD HH:MM:SS`, `recordTrade` does not fail: it returns
success, inserting a record under the unspecified key the ignored parse
produces. -/
theorem recordTrade_malformed_succeeds :
    parseTimestamp "garbage" = none ∧
      recordTrade emptyStore "garbage" 1 'B' 5
        = Except.ok ⟨[(0, ⟨"garbage", 1, 'B', 5⟩)]⟩ := by
  constructor
  · rfl
  · rfl

/-- C7 (amended): `recordTrade` never fails — for every ledger state and every
timestamp string, well-formed or not, the call succeeds and inserts the record
under the key computed from the (possibly failed) parse; no
`MalformedTimestamp` error is ever produced. -/
theorem recordTrade_always_succeeds (s : StoreTrades) (timeStamp : String)
    (quantity : Int) (buySellIndicator : Char) (price : Int) :
    ∃ s' : StoreTrades,
      recordTrade s timeStamp quantity buySellIndicator price = Except.ok s' ∧
      (tradeKey timeStamp, Trade.mk timeStamp quantity buySellIndicator price) ∈ s'.trades ∧
      s'.trades = mmInsert (tradeKey timeStamp)
        (Trade.mk timeStamp quantity buySellIndicator price) s.trades := by
  refine ⟨⟨mmInsert (tradeKey timeStamp)
    (Trade.mk timeStamp quantity buySellIndicator price) s.trades⟩, rfl, ?_, rfl⟩
  exact mem_mmInsert.mpr (Or.inl rfl)

/-- C8: after a `recordTrade` with a well-formed timestamp succeeds, the new
record is in the qualifying range of any query whose window covers its key; in
particular a VWAP query at a covering current time counts quantity `q` and
`q * p` in its two accumulated sums. -/
theorem recordTrade_visible_in_window (s : StoreTrades) (timeStamp : String)
    (q : Int) (b : Char) (p : Int) (currentTime : Int) (hs : WF s)
    (hts : (parseTimestamp timeStamp).isSome = true)
    (hcover : currentTime - 15 * 60 ≤ tradeKey timeStamp) :
    ∃ s', recordTrade s timeStamp q b p = Except.ok s' ∧ WF s' ∧
      (tradeKey timeStamp, Trade.mk timeStamp q b p) ∈ qualifyingTrades currentTime s' ∧
      sumQ (qualifyingTrades currentTime s') = sumQ (qualifyingTrades currentTime s) + (q : ℚ) ∧
      sumQP (qualifyingTrades currentTime s')
        = sumQP (qualifyingTrades currentTime s) + (q : ℚ) * (p : ℚ) := by
  refine ⟨⟨mmInsert (tradeKey timeStamp) (Trade.mk timeStamp q b p) s.trades⟩, rfl, ?_, ?_, ?_, ?_⟩
  case _ => exact mmInsert_pairwise hs
  case _ =>
    have hwf' : WF (⟨mmInsert (tradeKey timeStamp) (Trade.mk timeStamp q b p) s.trades⟩ :
        StoreTrades) := mmInsert_pairwise hs
    rw [qualifying_eq_window _ _ hwf']
    refine List.mem_filter.mpr ⟨mem_mmInsert.mpr (Or.inl rfl), by simpa using hcover⟩
  case _ =>
    have hwf' : WF (⟨mmInsert (tradeKey timeStamp) (Trade.mk timeStamp q b p) s.trades⟩ :
        StoreTrades) := mmInsert_pairwise hs
    rw [qualifying_eq_window _ _ hwf', qualifying_eq_window _ _ hs]
    have hsum := sum_map_filter_mmInsert (fun kt => ((kt.2.quantity : ℚ)))
      (fun kt => decide (currentTime - 15 * 60 ≤ kt.1))
      (tradeKey timeStamp) (Trade.mk timeStamp q b p) s.trades
    rw [if_pos (by simpa using hcover)] at hsum
    exact hsum
  case _ =>
    have hwf' : WF (⟨mmInsert (tradeKey timeStamp) (Trade.mk timeStamp q b p) s.trades⟩ :
        StoreTrades) := mmInsert_pairwise hs
    rw [qualifying_eq_window _ _ hwf', qualifying_eq_window _ _ hs]
    have hsum := sum_map_filter_mmInsert (fun kt => ((kt.2.quantity : ℚ) * (kt.2.price : ℚ)))
      (fun kt => decide (currentTime - 15 * 60 ≤ kt.1))
      (tradeKey timeStamp) (Trade.mk timeStamp q b p) s.trades
    rw [if_pos (by simpa using hcover)] at hsum
    exact hsum

/-- C9: the two queries are pure reads — each returns the ledger state
unchanged alongside its result, whether that result is a value or the
`NoTradesFound` error. -/
theorem queries_pure_read (currentTime : Int) (s : StoreTrades) :
    (getVolumeWeightedStockPrice currentTime s).2 = s ∧
      (calculateGeometricMean s).2 = s :=
  ⟨rfl, rfl⟩

/-- C10: the buy/sell indicator never influences a query result — two ledgers
that agree entrywise on key, timestamp string, quantity and price (differing
at most in the indicator) give identical `getVolumeWeightedStockPrice` and
`calculateGeometricMean` results, success or failure alike. -/
theorem side_indicator_no_influence (currentTime : Int) (s1 s2 : StoreTrades)
    (h : sameCore s1.trades s2.trades = true) :
    (getVolumeWeightedStockPrice currentTime s1).1
        = (getVolumeWeightedStockPrice currentTime s2).1 ∧
      (calculateGeometricMean s1).1 = (calculateGeometricMean s2).1 := by
  have hmap := sameCore_map_core h
  have hdrop := map_core_dropWhile (currentTime - 15 * 60) hmap
  have hsq : sumQ (qualifyingTrades currentTime s1) = sumQ (qualifyingTrades currentTime s2) :=
    map_core_sumQ hdrop
  have hsqp : sumQP (qualifyingTrades currentTime s1) = sumQP (qualifyingTrades currentTime s2) :=
    map_core_sumQP hdrop
  have hlen : s1.trades.length = s2.trades.length := map_core_length hmap
  have hprod : prodP s1.trades = prodP s2.trades := map_core_prodP hmap
  constructor
  · rw [getVolumeWeightedStockPrice, getVolumeWeightedStockPrice]
    simp only [hsq, hsqp]
  · rw [calculateGeometricMean, calculateGeometricMean]
    simp only [hlen, hprod]

/-- C1 witness: the window theorem at `sampleStore`, current time 1000 — the
key-50 trade is excluded, the in-window key-100 and future key-2000 trades
are counted. -/
theorem vwap_sums_over_window_witness :
    WF sampleStore ∧ sumQ (windowTrades 1000 sampleStore) ≠ 0 ∧
      (qualifyingTrades 1000 sampleStore = windowTrades 1000 sampleStore ∧
        (getVolumeWeightedStockPrice 1000 sampleStore).1
          = Except.ok (sumQP (windowTrades 1000 sampleStore)
              / sumQ (windowTrades 1000 sampleStore))) :=
  ⟨by decide, by norm_num [sumQ, windowTrades, sampleStore],
    vwap_sums_over_window 1000 sampleStore (by decide)
      (by norm_num [sumQ, windowTrades, sampleStore])⟩

/-- C2 witness: the failure-condition theorem at `sampleStore`, current time
1000. -/
theorem queries_fail_iff_empty_witness :
    WF sampleStore ∧
      (((getVolumeWeightedStockPrice 1000 sampleStore).1 = Except.error Err.NoTradesFound ↔
        sumQ (windowTrades 1000 sampleStore) = 0) ∧
      ((getVolumeWeightedStockPrice 1000 sampleStore).1 = Except.error Err.NoTradesFound ∨
        (getVolumeWeightedStockPrice 1000 sampleStore).1
          = Except.ok (sumQP (windowTrades 1000 sampleStore)
              / sumQ (windowTrades 1000 sampleStore))) ∧
      ((calculateGeometricMean sampleStore).1 = Except.error Err.NoTradesFound ↔
        sampleStore.trades = []) ∧
      ((calculateGeometricMean sampleStore).1 = Except.error Err.NoTradesFound ∨
        (calculateGeometricMean sampleStore).1
          = Except.ok (prodP sampleStore.trades, sampleStore.trades.length))) :=
  ⟨by decide, queries_fail_iff_empty 1000 sampleStore (by decide)⟩

/-- C3 witness: the geometric-mean theorem at `sampleStore` (three records,
including the key-50 trade a VWAP at current time 1000 would exclude). -/
theorem geomean_over_all_records_witness :
    sampleStore.trades ≠ [] ∧
      Except.map (fun pn : ℚ × ℕ => ((pn.1 : ℝ)) ^ ((1 : ℝ) / (pn.2 : ℝ)))
          (calculateGeometricMean sampleStore).1
        = Except.ok ((sampleStore.trades.map (fun kt => ((kt.2.price : ℝ)))).prod
            ^ ((1 : ℝ) / (sampleStore.trades.length : ℝ))) :=
  ⟨by decide, geomean_over_all_records sampleStore (by decide)⟩

/-- C5 witness: the trade-type string `"Wombat"` is neither `"Common"` nor
`"Preferred"` and yields `InvalidTradeType`. -/
theorem dividendYield_invalid_type_witness :
    ("Wombat" : String) ≠ "Common" ∧ ("Wombat" : String) ≠ "Preferred" ∧
      calculateDividendYield 5 "Wombat" 1 2 3 = Except.error Err.InvalidTradeType :=
  ⟨by decide, by decide, dividendYield_invalid_type 5 "Wombat" 1 2 3 (by decide) (by decide)⟩

/-- C6 witness: the P/E theorem at price 10, dividend 2. -/
theorem peRatio_division_witness :
    (2 : ℚ) ≠ 0 ∧ calculatePERatio 10 2 = ((10 : Int) : ℚ) / 2 :=
  ⟨by decide, peRatio_division 10 2 (by decide)⟩

/-- C8 witness: recording a trade timestamped `"2024-01-01 10:00:00"` into
`sampleStore` and querying with that very instant as the current time counts
the new quantity 100 and quantity × price 100 × 50 in the VWAP sums. -/
theorem recordTrade_visible_in_window_witness :
    WF sampleStore ∧ (parseTimestamp "2024-01-01 10:00:00").isSome = true ∧
      tradeKey "2024-01-01 10:00:00" - 15 * 60 ≤ tradeKey "2024-01-01 10:00:00" ∧
      (∃ s', recordTrade sampleStore "2024-01-01 10:00:00" 100 'B' 50 = Except.ok s' ∧
        WF s' ∧
        (tradeKey "2024-01-01 10:00:00", Trade.mk "2024-01-01 10:00:00" 100 'B' 50)
          ∈ qualifyingTrades (tradeKey "2024-01-01 10:00:00") s' ∧
        sumQ (qualifyingTrades (tradeKey "2024-01-01 10:00:00") s')
          = sumQ (qualifyingTrades (tradeKey "2024-01-01 10:00:00") sampleStore)
            + ((100 : Int) : ℚ) ∧
        sumQP (qualifyingTrades (tradeKey "2024-01-01 10:00:00") s')
          = sumQP (qualifyingTrades (tradeKey "2024-01-01 10:00:00") sampleStore)
            + ((100 : Int) : ℚ) * ((50 : Int) : ℚ)) :=
  ⟨by decide, by decide, by decide,
    recordTrade_visible_in_window sampleStore "2024-01-01 10:00:00" 100 'B' 50
      (tradeKey "2024-01-01 10:00:00") (by decide) (by decide) (by decide)⟩

/-- C10 witness: `sampleStore` and `sampleStoreFlipped` differ only in the
buy/sell indicators and give identical query results. -/
theorem side_indicator_no_influence_witness :
    sameCore sampleStore.trades sampleStoreFlipped.trades = true ∧
      ((getVolumeWeightedStockPrice 1000 sampleStore).1
          = (getVolumeWeightedStockPrice 1000 sampleStoreFlipped).1 ∧
        (calculateGeometricMean sampleStore).1
          = (calculateGeometricMean sampleStoreFlipped).1) :=
  ⟨by decide, side_indicator_no_influence 1000 sampleStore sampleStoreFlipped (by decide)⟩
